import Mathlib

/-!
Verification of the proxygen HTTP-over-QUIC session core (HQSession).

This file gives a shallow embedding of the session logic found in
proxygen/lib/http/session/HQSession.{h,cpp}: the drain / GOAWAY state
machine, stream-acceptance policy, push-stream binding, the ingress-EOM
gate, the reads-per-loop budget, reset handling and unidirectional
stream dispatch.  Stream-id classification follows the QUIC encoding
exercised by proxygen/lib/http/session/test/MockQuicSocketDriver.h.
-/

namespace HQSession

/-- Transport direction of a session: UPSTREAM is the client side,
DOWNSTREAM the server side. -/
inductive TransportDirection
  | UPSTREAM
  | DOWNSTREAM
deriving DecidableEq, Repr

/-- Negotiated wire dialect (HQSession::HQVersion): H1Q_FB_V1 and
H1Q_FB_V2 are the legacy profiles, HQ is the H3 profile. -/
inductive HQVersion
  | H1Q_FB_V1
  | H1Q_FB_V2
  | HQ
deriving DecidableEq, Repr

/-- HQSession::DrainState (HQSession.h). -/
inductive DrainState
  | NONE
  | PENDING
  | CLOSE_SENT
  | CLOSE_RECEIVED
  | FIRST_GOAWAY
  | SECOND_GOAWAY
  | DONE
deriving DecidableEq, Repr

/-- HTTP/3 application error codes used by the session. -/
inductive ErrorCode
  | HTTP_NO_ERROR
  | HTTP_WRONG_STREAM
  | HTTP_WRONG_STREAM_COUNT
  | HTTP_CLOSED_CRITICAL_STREAM
  | HTTP_UNKNOWN_STREAM_TYPE
  | HTTP_REQUEST_CANCELLED
  | HTTP_REQUEST_REJECTED
  | HTTP_INTERNAL_ERROR
  | HTTP_GENERAL_PROTOCOL_ERROR
  | GIVEUP_ZERO_RTT
deriving DecidableEq, Repr

/-- Proxygen error classifications delivered with synthesized HTTP
exceptions (the subset produced by HQStreamTransportBase::onResetStream). -/
inductive ProxygenError
  | kErrorStreamAbort
  | kErrorStreamUnacknowledged
  | kErrorEarlyDataFailed
deriving DecidableEq, Repr

/-- QUIC stream-id classification: the low bit marks server-initiated
streams (MockQuicSocketDriver: stream & 0b01). -/
def isServerStream (id : Nat) : Bool := id % 2 == 1

/-- QUIC stream-id classification: client-initiated streams have the low
bit clear (MockQuicSocketDriver: (stream & 0b01) == 0). -/
def isClientStream (id : Nat) : Bool := id % 2 == 0

/-- QUIC stream-id classification: the second bit marks unidirectional
streams (MockQuicSocketDriver: stream & 0b10). -/
def isUnidirectionalStream (id : Nat) : Bool := id / 2 % 2 == 1

/-- QUIC stream-id classification: bidirectional streams have the second
bit clear (MockQuicSocketDriver: !(stream & 0b10)). -/
def isBidirectionalStream (id : Nat) : Bool := !(isUnidirectionalStream id)

/-- The maximum stream id representable in a QUIC varint, used by
getGoawayStreamId as the first-GOAWAY sentinel (2^62 - 1). -/
def kEightByteLimit : Nat := 2 ^ 62 - 1

/-- HQSession::kMaxReadsPerLoop (HQSession.cpp). -/
def kMaxReadsPerLoop : Nat := 16

/-- Session state relevant to drain / GOAWAY processing and stream
acceptance.  goawaysSent records the stream ids carried by GOAWAY frames
generated on the egress control stream; streams records accepted request
stream ids. -/
structure Session where
  version : HQVersion
  direction : TransportDirection
  drainState : DrainState
  maxAllowedStreamId : Nat
  maxIncomingStreamId : Nat
  goawaysSent : List Nat
  streams : List Nat
deriving DecidableEq, Repr

/-- Outcome of checking a transport notification about a new stream:
either the stream may be created, or it is aborted with an application
error code and no stream object is created. -/
inductive StreamCheckResult
  | accept
  | reject (err : ErrorCode)
deriving DecidableEq, Repr

/-- HQSession::GoawayUtils::checkNewStream (HQSession.cpp).  Rejects all
bidirectional server-initiated streams with HTTP_WRONG_STREAM; while
draining, rejects streams beyond the GOAWAY bound with
HTTP_REQUEST_REJECTED (upstream compares against maxAllowedStreamId_,
downstream compares bidirectional ids against maxIncomingStreamId_). -/
def GoawayUtils.checkNewStream (s : Session) (id : Nat) : StreamCheckResult :=
  if isBidirectionalStream id && isServerStream id then
    .reject .HTTP_WRONG_STREAM
  else if s.drainState ≠ DrainState.NONE ∧
      ((s.direction = .UPSTREAM ∧ id > s.maxAllowedStreamId) ∨
       (s.direction = .DOWNSTREAM ∧ isBidirectionalStream id = true ∧
        id > s.maxIncomingStreamId)) then
    .reject .HTTP_REQUEST_REJECTED
  else
    .accept

/-- HQSession::H1QFBV1VersionUtils::checkNewStream (HQSession.cpp):
rejects all unidirectional streams and all server-initiated streams. -/
def H1QFBV1VersionUtils.checkNewStream (id : Nat) : StreamCheckResult :=
  if isUnidirectionalStream id || isServerStream id then
    .reject .HTTP_WRONG_STREAM
  else
    .accept

/-- Dialect dispatch of checkNewStream: H1Q_FB_V1 uses its own check,
H1Q_FB_V2 and HQ both delegate to GoawayUtils::checkNewStream
(HQSession.h, H1QFBV2VersionUtils / HQVersionUtils). -/
def versionCheckNewStream (s : Session) (id : Nat) : StreamCheckResult :=
  match s.version with
  | .H1Q_FB_V1 => H1QFBV1VersionUtils.checkNewStream id
  | _ => GoawayUtils.checkNewStream s id

/-- HQSession::onNewBidirectionalStream: if the dialect check passes, a
stream transport is created and maxIncomingStreamId_ is raised to the
new id; otherwise nothing is created. -/
def onNewBidirectionalStream (s : Session) (id : Nat) :
    Session × StreamCheckResult :=
  match versionCheckNewStream s id with
  | .reject e => (s, .reject e)
  | .accept =>
      ({ s with
          streams := s.streams ++ [id],
          maxIncomingStreamId := max s.maxIncomingStreamId id },
        .accept)

/-- Whether a stream id is peer-initiated from the point of view of a
session with the given direction. -/
def isPeerInitiated (d : TransportDirection) (id : Nat) : Bool :=
  match d with
  | .UPSTREAM => isServerStream id
  | .DOWNSTREAM => isClientStream id

/-- The GOAWAY-bound comparison described by claim C1: upstream compares
the id against the advertised last-good id, downstream compares
bidirectional ids against the largest peer-initiated id seen. -/
def c1ExceedsBound (s : Session) (id : Nat) : Prop :=
  (s.direction = .UPSTREAM ∧ id > s.maxAllowedStreamId) ∨
  (s.direction = .DOWNSTREAM ∧ isBidirectionalStream id = true ∧
    id > s.maxIncomingStreamId)

instance (s : Session) (id : Nat) : Decidable (c1ExceedsBound s id) := by
  unfold c1ExceedsBound; infer_instance

/-- Claim C1 instantiated at one session state and stream id: rejection
with HTTP_REQUEST_REJECTED happens exactly when the id exceeds the
applicable bound, and a stream at or below the bound is accepted. -/
def c1ClaimAt (s : Session) (id : Nat) : Prop :=
  (GoawayUtils.checkNewStream s id = .reject .HTTP_REQUEST_REJECTED ↔
    c1ExceedsBound s id) ∧
  (¬ c1ExceedsBound s id → GoawayUtils.checkNewStream s id = .accept)

instance (s : Session) (id : Nat) : Decidable (c1ClaimAt s id) := by
  unfold c1ClaimAt; infer_instance

/-- HQSession::getGoawayStreamId: the sentinel maximum varint while the
drain state is NONE or PENDING, otherwise maxIncomingStreamId_. -/
def getGoawayStreamId (s : Session) : Nat :=
  if s.drainState = .NONE ∨ s.drainState = .PENDING then kEightByteLimit
  else s.maxIncomingStreamId

/-- HQSession::GoawayUtils::sendGoaway.  Upstream sessions and DONE
sessions are no-ops; a failure to generate the frame or to register the
delivery callback (txOk = false) shortcuts to DONE without a delivered
frame; on success the GOAWAY carrying getGoawayStreamId is generated and
DrainState advances PENDING -> FIRST_GOAWAY, otherwise -> SECOND_GOAWAY. -/
def GoawayUtils.sendGoaway (txOk : Bool) (s : Session) : Session :=
  if s.direction = .UPSTREAM then s
  else if s.drainState = .DONE then s
  else if txOk = false then { s with drainState := .DONE }
  else
    let s' := { s with goawaysSent := s.goawaysSent ++ [getGoawayStreamId s] }
    if s.drainState = .PENDING then { s' with drainState := .FIRST_GOAWAY }
    else { s' with drainState := .SECOND_GOAWAY }

/-- Dialect dispatch of sendGoaway: H1Q_FB_V1 regenerates per-stream
Connection-close GOAWAYs (no DrainState change); H1Q_FB_V2 and HQ use
GoawayUtils::sendGoaway. -/
def versionSendGoaway (txOk : Bool) (s : Session) : Session :=
  match s.version with
  | .H1Q_FB_V1 => s
  | _ => GoawayUtils.sendGoaway txOk s

/-- HQSession::drainImpl: a no-op unless DrainState is NONE, in which
case it moves to PENDING and kicks the dialect sendGoaway. -/
def drainImpl (txOk : Bool) (s : Session) : Session :=
  if s.drainState ≠ DrainState.NONE then s
  else versionSendGoaway txOk { s with drainState := .PENDING }

/-- HQSession::checkForShutdown, restricted to its DrainState effect: an
upstream non-H1Q-v1 session still PENDING is moved to DONE. -/
def checkForShutdown (s : Session) : Session :=
  if s.version ≠ HQVersion.H1Q_FB_V1 ∧ s.direction = .UPSTREAM ∧
      s.drainState = .PENDING then
    { s with drainState := .DONE }
  else s

/-- HQSession::closeWhenIdle: drainImpl, then H1Q-v1 jumps straight to
DONE, then checkForShutdown. -/
def closeWhenIdle (txOk : Bool) (s : Session) : Session :=
  let s1 := drainImpl txOk s
  let s2 := if s1.version = HQVersion.H1Q_FB_V1
            then { s1 with drainState := .DONE } else s1
  checkForShutdown s2

/-- HQSession::onGoawayAck: at FIRST_GOAWAY the second GOAWAY is sent;
at SECOND_GOAWAY the drain completes. -/
def onGoawayAck (txOk : Bool) (s : Session) : Session :=
  if s.drainState = .FIRST_GOAWAY then versionSendGoaway txOk s
  else if s.drainState = .SECOND_GOAWAY then { s with drainState := .DONE }
  else s

/-- HQSession::onGoaway (receipt of a GOAWAY frame): lowers
maxAllowedStreamId_ to min of the current bound and the advertised
last-good id, drains, and advances NONE/PENDING -> FIRST_GOAWAY,
FIRST_GOAWAY -> DONE, then checks for shutdown.  H1Q-v1 sessions have
no control codec that could deliver a GOAWAY (the source DCHECKs
version_ != H1Q_FB_V1), so the function is a no-op for them. -/
def onGoaway (lastGoodStreamID : Nat) (txOk : Bool) (s : Session)
    : Session :=
  if s.version = .H1Q_FB_V1 then s
  else
    let s0 := { s with
      maxAllowedStreamId := min s.maxAllowedStreamId lastGoodStreamID }
    let s1 := drainImpl txOk s0
    let s2 :=
      if s1.drainState = .NONE ∨ s1.drainState = .PENDING then
        { s1 with drainState := .FIRST_GOAWAY }
      else if s1.drainState = .FIRST_GOAWAY then
        { s1 with drainState := .DONE }
      else s1
    checkForShutdown s2

/-- HQSession::dropConnectionWithError always leaves DrainState DONE. -/
def dropConnection (s : Session) : Session :=
  { s with drainState := .DONE }

/-- HQSession::onConnectionEnd sets DONE and calls closeWhenIdle. -/
def onConnectionEnd (s : Session) : Session :=
  closeWhenIdle true { s with drainState := .DONE }

/-- HQControlStream::onCanceled: a canceled GOAWAY delivery callback
accelerates draining to DONE. -/
def goawayDeliveryCanceled (s : Session) : Session :=
  { s with drainState := .DONE }

/-- The GOAWAY kick in HQSession::onTransportReadyCommon: sendGoaway is
invoked only when drain was requested before transport-ready
(DrainState PENDING). -/
def transportReadyGoawayKick (txOk : Bool) (s : Session) : Session :=
  if s.drainState = .PENDING then versionSendGoaway txOk s else s

/-- HQSession::H1QFBV1VersionUtils::headersComplete: on a message with a
Connection: close token, CLOSE_SENT completes the drain, otherwise the
session (draining if it was not yet) records CLOSE_RECEIVED. -/
def v1HeadersComplete (hasCloseToken : Bool) (s : Session) : Session :=
  if s.version ≠ HQVersion.H1Q_FB_V1 then s
  else if s.drainState = .DONE then s
  else if hasCloseToken = false then s
  else if s.drainState = .CLOSE_SENT then { s with drainState := .DONE }
  else
    let s1 := if s.drainState = .NONE then drainImpl true s else s
    { s1 with drainState := .CLOSE_RECEIVED }

/-- HQSession::H1QFBV1VersionUtils::checkSendingGoaway: a message that
does not want keepalive initiates the drain; then CLOSE_RECEIVED
completes the drain and PENDING becomes CLOSE_SENT. -/
def v1CheckSendingGoaway (wantsKeepalive : Bool) (s : Session) : Session :=
  if s.version ≠ HQVersion.H1Q_FB_V1 then s
  else
    let s1 := if s.drainState = .NONE ∧ wantsKeepalive = false
              then drainImpl true s else s
    if s1.drainState = .CLOSE_RECEIVED then { s1 with drainState := .DONE }
    else if s1.drainState = .PENDING then { s1 with drainState := .CLOSE_SENT }
    else s1

/-- The session operations that touch DrainState (plus new-stream
acceptance), used to state drain monotonicity. -/
inductive SessionOp
  | drain (txOk : Bool)
  | transportReady (txOk : Bool)
  | goawayAck (txOk : Bool)
  | goawayCanceled
  | recvGoaway (lastGoodStreamID : Nat) (txOk : Bool)
  | closeIdle (txOk : Bool)
  | drop
  | shutdownCheck
  | connectionEnd
  | v1Headers (hasCloseToken : Bool)
  | v1SendCheck (wantsKeepalive : Bool)
  | newBidiStream (id : Nat)
deriving DecidableEq, Repr

/-- Interpretation of a session operation as a state transformer. -/
def applyOp (op : SessionOp) (s : Session) : Session :=
  match op with
  | .drain txOk => drainImpl txOk s
  | .transportReady txOk => transportReadyGoawayKick txOk s
  | .goawayAck txOk => onGoawayAck txOk s
  | .goawayCanceled => goawayDeliveryCanceled s
  | .recvGoaway id txOk => onGoaway id txOk s
  | .closeIdle txOk => closeWhenIdle txOk s
  | .drop => dropConnection s
  | .shutdownCheck => checkForShutdown s
  | .connectionEnd => onConnectionEnd s
  | .v1Headers b => v1HeadersComplete b s
  | .v1SendCheck b => v1CheckSendingGoaway b s
  | .newBidiStream id => (onNewBidirectionalStream s id).1

/-- Reachability in the drain DAG (HQSession.h comment): NONE -> PENDING
-> {CLOSE_SENT, CLOSE_RECEIVED} -> DONE for H1Q-v1 and NONE -> PENDING
-> FIRST_GOAWAY -> SECOND_GOAWAY -> DONE for the GOAWAY dialects. -/
def drainReachable : DrainState → DrainState → Bool
  | .NONE, _ => true
  | .PENDING, .NONE => false
  | .PENDING, _ => true
  | .CLOSE_SENT, .CLOSE_SENT => true
  | .CLOSE_SENT, .DONE => true
  | .CLOSE_SENT, _ => false
  | .CLOSE_RECEIVED, .CLOSE_RECEIVED => true
  | .CLOSE_RECEIVED, .DONE => true
  | .CLOSE_RECEIVED, _ => false
  | .FIRST_GOAWAY, .FIRST_GOAWAY => true
  | .FIRST_GOAWAY, .SECOND_GOAWAY => true
  | .FIRST_GOAWAY, .DONE => true
  | .FIRST_GOAWAY, _ => false
  | .SECOND_GOAWAY, .SECOND_GOAWAY => true
  | .SECOND_GOAWAY, .DONE => true
  | .SECOND_GOAWAY, _ => false
  | .DONE, .DONE => true
  | .DONE, _ => false

/-- Dialect / drain-state compatibility: H1Q-v1 sessions never enter the
GOAWAY states and the GOAWAY dialects never enter the Connection-close
states. -/
def drainStateOK : HQVersion → DrainState → Bool
  | .H1Q_FB_V1, .FIRST_GOAWAY => false
  | .H1Q_FB_V1, .SECOND_GOAWAY => false
  | .H1Q_FB_V1, _ => true
  | _, .CLOSE_SENT => false
  | _, .CLOSE_RECEIVED => false
  | _, _ => true

/-- Dialect / drain-state compatibility of a session state. -/
def drainInv (s : Session) : Bool :=
  drainStateOK s.version s.drainState

/-- Sequential application of session operations. -/
def runOps (ops : List SessionOp) (s : Session) : Session :=
  ops.foldl (fun st op => applyOp op st) s

/-- HQSession::createStreamTransport: refuses a transaction when the
socket is not good or a stream with that id already exists; otherwise
adds the request stream. -/
def createStreamTransport (s : Session) (sockGood : Bool) (id : Nat)
    : Option Session :=
  if sockGood = false ∨ id ∈ s.streams then none
  else some { s with streams := s.streams ++ [id] }

/-- HQSession::newTransaction: returns no transaction when DrainState is
CLOSE_SENT, FIRST_GOAWAY or DONE, when the socket is not good, or when
the transport refuses to allocate a bidirectional stream id
(allocatedId = none); otherwise it creates the stream transport for the
allocated id.  The result is the new session state when a transaction
was returned. -/
def newTransaction (s : Session) (sockGood : Bool)
    (allocatedId : Option Nat) : Option Session :=
  if s.drainState = .CLOSE_SENT ∨ s.drainState = .FIRST_GOAWAY ∨
      s.drainState = .DONE then none
  else if sockGood = false then none
  else
    match allocatedId with
    | none => none
    | some id => createStreamTransport s sockGood id

/-- Drain states strictly past PENDING in the drain DAG. -/
def drainingPastPending (d : DrainState) : Prop :=
  d = .CLOSE_SENT ∨ d = .CLOSE_RECEIVED ∨ d = .FIRST_GOAWAY ∨
  d = .SECOND_GOAWAY ∨ d = .DONE

instance (d : DrainState) : Decidable (drainingPastPending d) := by
  unfold drainingPastPending; infer_instance

/-- Outcome of HQStreamTransportBase::onResetStream: the synthesized
HTTP exception (with its proxygen error classification) delivered to the
transaction, and the reply reset code passed to sendAbortImpl. -/
structure ResetOutcome where
  exceptionDelivered : Bool
  proxygenError : ProxygenError
  replyResetCode : ErrorCode
deriving DecidableEq, Repr

/-- HQStreamTransportBase::onResetStream (HQSession.cpp): the reply
reset code is chosen by direction and ingress progress; the exception is
marked retryable (kErrorStreamUnacknowledged) when the peer code was
HTTP_REQUEST_REJECTED, and kErrorEarlyDataFailed overrides it for
GIVEUP_ZERO_RTT. -/
def onResetStream (direction : TransportDirection) (ingressStarted : Bool)
    (peerCode : ErrorCode) : ResetOutcome :=
  let replyError : ErrorCode :=
    if direction = .UPSTREAM then .HTTP_REQUEST_CANCELLED
    else if ingressStarted = false then .HTTP_REQUEST_REJECTED
    else .HTTP_NO_ERROR
  let pe : ProxygenError :=
    if peerCode = .HTTP_REQUEST_REJECTED then .kErrorStreamUnacknowledged
    else .kErrorStreamAbort
  let pe : ProxygenError :=
    if peerCode = .GIVEUP_ZERO_RTT then .kErrorEarlyDataFailed else pe
  { exceptionDelivered := true
    proxygenError := pe
    replyResetCode := replyError }

/-- hq::UnidirectionalStreamType: the typed unidirectional stream roles.
-/
inductive UnidirectionalStreamType
  | CONTROL
  | PUSH
  | QPACK_ENCODER
  | QPACK_DECODER
  | H1Q_CONTROL
deriving DecidableEq, Repr

/-- Modelled from the spec: hq::withType, the decoding of the varint
unidirectional stream preface into a StreamType.  The spec names the
canonical values Control, Push, QPACK-Encoder, QPACK-Decoder and
H1Q-Control; every other varint value (including the reserved / grease
values 0x1f * N + 0x21) denotes no known type. -/
def withType (preface : Nat) : Option UnidirectionalStreamType :=
  if preface = 0x00 then some .CONTROL
  else if preface = 0x01 then some .PUSH
  else if preface = 0x02 then some .QPACK_ENCODER
  else if preface = 0x03 then some .QPACK_DECODER
  else if preface = 0xF1 then some .H1Q_CONTROL
  else none

/-- HQSession::H1QFBV2VersionUtils::parseStreamPreface: only
H1Q_CONTROL is a known type for the H1Q-v2 dialect. -/
def H1QFBV2VersionUtils.parseStreamPreface (preface : Nat)
    : Option UnidirectionalStreamType :=
  match withType preface with
  | some .H1Q_CONTROL => some .H1Q_CONTROL
  | _ => none

/-- HQSession::HQVersionUtils::parseStreamPreface: CONTROL, PUSH,
QPACK_ENCODER and QPACK_DECODER are the known types for the H3 dialect.
-/
def HQVersionUtils.parseStreamPreface (preface : Nat)
    : Option UnidirectionalStreamType :=
  match withType preface with
  | some .CONTROL => some .CONTROL
  | some .PUSH => some .PUSH
  | some .QPACK_ENCODER => some .QPACK_ENCODER
  | some .QPACK_DECODER => some .QPACK_DECODER
  | _ => none

/-- Dialect dispatch of parseStreamPreface for the dialects that accept
unidirectional streams. -/
def versionParseStreamPreface (v : HQVersion) (preface : Nat)
    : Option UnidirectionalStreamType :=
  match v with
  | .H1Q_FB_V1 => none
  | .H1Q_FB_V2 => H1QFBV2VersionUtils.parseStreamPreface preface
  | .HQ => HQVersionUtils.parseStreamPreface preface

/-- Action taken on a new peer-initiated unidirectional stream once its
preface is decoded. -/
inductive UniDispatchResult
  | assignedControl (t : UnidirectionalStreamType)
  | newPushStream
  | stopSending (err : ErrorCode)
deriving DecidableEq, Repr

/-- Modelled from the spec: the HQUnidirStreamDispatcher hand-off.  A
preface denoting a known control-like type creates the ingress control
stream; Push hands the stream to push processing; an unknown preface is
rejected through HQSession::rejectStream, which only sends STOP_SENDING
with HTTP_UNKNOWN_STREAM_TYPE (no stream object, no data read). -/
def dispatchUniStreamPreface (v : HQVersion) (preface : Nat)
    : UniDispatchResult :=
  match versionParseStreamPreface v preface with
  | none => .stopSending .HTTP_UNKNOWN_STREAM_TYPE
  | some .PUSH => .newPushStream
  | some t => .assignedControl t

/-- Whether a dispatch outcome creates a stream object or reads stream
data: only the reject path does neither. -/
def uniDispatchCreatesStream : UniDispatchResult → Bool
  | .stopSending _ => false
  | _ => true

/-- Per-request-stream ingress-EOM state: the two eomGate_ conditions
(CODEC and TRANSPORT), whether the gate still holds the registered
txn.onIngressEOM continuation, the number of times that continuation has
run, and the ingress error latch. -/
structure IngressEOMState where
  codecEOM : Bool
  transportEOF : Bool
  eomPending : Bool
  eomFired : Nat
  ingressError : Bool
deriving DecidableEq, Repr

/-- HQStreamTransportBase::initIngress registers the txn.onIngressEOM
continuation on a fresh gate. -/
def initIngressEOMState : IngressEOMState :=
  { codecEOM := false
    transportEOF := false
    eomPending := true
    eomFired := 0
    ingressError := false }

/-- Modelled from the spec: ConditionalGate.set — mark one condition and,
once both conditions hold, run the stored continuation exactly once
(the EOM gate is the conjunction of codec-saw-EOM and
transport-saw-EOF and fires transaction ingress-EOM exactly once). -/
def eomGateSet (setCodec : Bool) (s : IngressEOMState) : IngressEOMState :=
  let s := if setCodec then { s with codecEOM := true }
           else { s with transportEOF := true }
  if s.codecEOM && s.transportEOF && s.eomPending then
    { s with eomFired := s.eomFired + 1, eomPending := false }
  else s

/-- Ingress events that touch the EOM gate of one request stream. -/
inductive IngressEvent
  | msgComplete (extraResponseExpected : Bool)
  | ingressEOF
  | codecError
deriving DecidableEq, Repr

/-- Step function for the ingress-EOM machinery of one request stream.
msgComplete is HQStreamTransportBase::onMessageComplete (an upstream 1xx
with more responses expected is ignored, otherwise the CODEC condition
is set); ingressEOF is HQStreamTransportBase::onIngressEOF (at most once
per stream, skipped after an ingress error, otherwise the TRANSPORT
condition is set); codecError is HQStreamTransportBase::onError, which
latches ingressError_ and never follows a codec EOM. -/
def ingressStep (s : IngressEOMState) (e : IngressEvent) : IngressEOMState :=
  match e with
  | .msgComplete extra =>
      if extra then s else eomGateSet true s
  | .ingressEOF =>
      if s.transportEOF then s
      else if s.ingressError then s
      else eomGateSet false s
  | .codecError =>
      if s.codecEOM then s else { s with ingressError := true }

/-- Run a sequence of ingress events from the freshly initialized
stream. -/
def runIngress (evs : List IngressEvent) : IngressEOMState :=
  evs.foldl ingressStep initIngressEOMState

/-- Accumulator for read dispatch inside one loop-callback iteration:
the readsPerLoop_ counter, the streams actually read this iteration, and
the notifications skipped because the budget was exhausted (their data
stays buffered in the transport, which notifies them again on the next
loop: MockQuicSocketDriver::runLoopCallback re-delivers readAvailable
for every stream whose read buffer is non-empty). -/
structure ReadLoopAcc where
  readsPerLoop : Nat
  dispatched : List Nat
  deferred : List Nat
deriving DecidableEq, Repr

/-- HQSession::readAvailable: once readsPerLoop_ reaches
kMaxReadsPerLoop the notification performs no read (the stream stays
pending in the transport); otherwise the counter is bumped and the
request stream is read. -/
def readAvailable (acc : ReadLoopAcc) (id : Nat) : ReadLoopAcc :=
  if kMaxReadsPerLoop ≤ acc.readsPerLoop then
    { acc with deferred := acc.deferred ++ [id] }
  else
    { acc with
        readsPerLoop := acc.readsPerLoop + 1,
        dispatched := acc.dispatched ++ [id] }

/-- One loop-callback iteration over the streams with transport data
pending: HQSession::runLoopCallback resets readsPerLoop_ to zero, then
the transport delivers a readAvailable notification per pending stream.
-/
def runLoopCallbackReads (pending : List Nat) : ReadLoopAcc :=
  pending.foldl readAvailable { readsPerLoop := 0, dispatched := [], deferred := [] }

/-- HQSession::HQIngressPushStream, reduced to the binding state claim
C4 is about: the PushId it was created for, the QUIC stream id it is
bound to (none while unbound), and whether bindTo installed the codec
and resumed reads. -/
structure HQIngressPushStream where
  pushId : Nat
  ingressStreamId : Option Nat
  codecInstalled : Bool
  readsResumed : Bool
deriving DecidableEq, Repr

/-- Push-stream bookkeeping of the session: ingress push streams keyed
by PushId, the PushId-to-QUIC-stream-id lookup built from nascent push
streams, and the set of paused QUIC streams. -/
structure PushSessionState where
  ingressPushStreams : List HQIngressPushStream
  streamLookup : List (Nat × Nat)
  pausedReads : List Nat
deriving DecidableEq, Repr

/-- The empty push bookkeeping state. -/
def initPushSessionState : PushSessionState :=
  { ingressPushStreams := [], streamLookup := [], pausedReads := [] }

/-- HQSession::findIngressPushStreamByPushId. -/
def findIngressPushStreamByPushId (s : PushSessionState) (pushId : Nat)
    : Option HQIngressPushStream :=
  s.ingressPushStreams.find? (fun ps => ps.pushId == pushId)

/-- HQSession::HQIngressPushStream::bindTo: install the codec, assign
the ingress stream id and resume reads on the stream. -/
def bindTo (ps : HQIngressPushStream) (streamId : Nat)
    : HQIngressPushStream :=
  { ps with
      ingressStreamId := some streamId
      codecInstalled := true
      readsResumed := true }

/-- HQSession::tryBindIngressStreamToTxn: when the lookup already maps
the PushId to a nascent QUIC stream and an ingress push stream for that
PushId exists, bind it and resume reads on the nascent stream. -/
def tryBindIngressStreamToTxn (s : PushSessionState) (pushId : Nat)
    : PushSessionState × Bool :=
  match s.streamLookup.find? (fun pr => pr.1 == pushId) with
  | none => (s, false)
  | some pr =>
      match findIngressPushStreamByPushId s pushId with
      | none => (s, false)
      | some _ =>
          ({ s with
              ingressPushStreams := s.ingressPushStreams.map
                (fun ps => if ps.pushId == pushId then bindTo ps pr.2 else ps)
              pausedReads := s.pausedReads.filter (fun id => id != pr.2) },
            true)

/-- HQSession::createIngressPushStream (promise arrival): create the
ingress push stream for the PushId and bind it at once when the nascent
stream is already known. -/
def createIngressPushStream (s : PushSessionState) (pushId : Nat)
    : PushSessionState × Bool :=
  let s1 := { s with
    ingressPushStreams := s.ingressPushStreams ++
      [{ pushId := pushId
         ingressStreamId := none
         codecInstalled := false
         readsResumed := false }] }
  tryBindIngressStreamToTxn s1 pushId

/-- HQSession::onNewPushStream (nascent push stream arrival): pause
reads on the stream, record the PushId-to-stream-id mapping, then look
up the ingress push stream for the PushId; the branch that would bind it
is an empty plug in the source, so nothing else happens. -/
def onNewPushStream (s : PushSessionState) (streamId pushId : Nat)
    : PushSessionState :=
  let s1 := { s with
    pausedReads := s.pausedReads ++ [streamId]
    streamLookup := s.streamLookup ++ [(pushId, streamId)] }
  match findIngressPushStreamByPushId s1 pushId with
  | some _ => s1
  | none => s1

/-- Invariant of the ingress-EOM machinery — the stored
txn.onIngressEOM continuation is pending exactly while the two gate
conditions do not both hold, and the fire count matches their
conjunction. -/
def ingressEOMInv (s : IngressEOMState) : Prop :=
  s.eomPending = !(s.codecEOM && s.transportEOF) ∧
  s.eomFired = (if s.codecEOM && s.transportEOF then 1 else 0)

/-- Discriminator for the GOAWAY delivery-ack operation. -/
def isGoawayAckOp : SessionOp → Bool
  | .goawayAck _ => true
  | _ => false

/-- Helper: GoawayUtils::sendGoaway does not touch maxAllowedStreamId_. -/
theorem sendGoaway_maxAllowed (txOk : Bool) (s : Session) :
    (GoawayUtils.sendGoaway txOk s).maxAllowedStreamId =
      s.maxAllowedStreamId := by
  unfold GoawayUtils.sendGoaway
  repeat' split
  all_goals rfl

/-- Helper: the dialect sendGoaway does not touch maxAllowedStreamId_. -/
theorem versionSendGoaway_maxAllowed (txOk : Bool) (s : Session) :
    (versionSendGoaway txOk s).maxAllowedStreamId = s.maxAllowedStreamId := by
  unfold versionSendGoaway
  split
  · rfl
  · exact sendGoaway_maxAllowed txOk _

/-- Helper: drainImpl does not touch maxAllowedStreamId_. -/
theorem drainImpl_maxAllowed (txOk : Bool) (s : Session) :
    (drainImpl txOk s).maxAllowedStreamId = s.maxAllowedStreamId := by
  unfold drainImpl
  split
  · rfl
  · exact versionSendGoaway_maxAllowed txOk _

/-- Helper: checkForShutdown does not touch maxAllowedStreamId_. -/
theorem checkForShutdown_maxAllowed (s : Session) :
    (checkForShutdown s).maxAllowedStreamId = s.maxAllowedStreamId := by
  unfold checkForShutdown
  split <;> rfl

/-- Helper: onGoaway never changes the negotiated dialect. -/
theorem onGoaway_version (lastGood : Nat) (txOk : Bool) (s : Session) :
    (onGoaway lastGood txOk s).version = s.version := by
  obtain ⟨v, d, ds, ma, mi, gs, strs⟩ := s
  cases v <;> cases d <;> cases ds <;> cases txOk <;>
    simp [onGoaway, drainImpl, versionSendGoaway, GoawayUtils.sendGoaway,
      getGoawayStreamId, checkForShutdown]

/-- Helper: on a GOAWAY dialect, onGoaway sets the bound to the minimum
of the current bound and the advertised last-good stream id. -/
theorem onGoaway_maxAllowed (lastGood : Nat) (txOk : Bool) (s : Session)
    (hv : s.version ≠ HQVersion.H1Q_FB_V1) :
    (onGoaway lastGood txOk s).maxAllowedStreamId =
      min s.maxAllowedStreamId lastGood := by
  unfold onGoaway
  rw [if_neg hv]
  rw [checkForShutdown_maxAllowed]
  split
  · rw [drainImpl_maxAllowed]
  · split
    · rw [drainImpl_maxAllowed]
    · rw [drainImpl_maxAllowed]

end HQSession

/-- Claim C10: processing a received GOAWAY sets maxAllowedStreamId to
the minimum of its current value and the advertised last-good id, so the
bound never increases, re-delivery of the same id leaves the bound
unchanged, and a later GOAWAY advertising a larger id leaves the bound
unchanged. -/
theorem c10_goaway_bound_monotone (s : HQSession.Session)
    (lastGood k : Nat) (hv : s.version ≠ HQSession.HQVersion.H1Q_FB_V1) :
    (HQSession.onGoaway lastGood true s).maxAllowedStreamId =
      min s.maxAllowedStreamId lastGood ∧
    (HQSession.onGoaway lastGood true s).maxAllowedStreamId ≤
      s.maxAllowedStreamId ∧
    (HQSession.onGoaway lastGood true
        (HQSession.onGoaway lastGood true s)).maxAllowedStreamId =
      (HQSession.onGoaway lastGood true s).maxAllowedStreamId ∧
    (HQSession.onGoaway (lastGood + k) true
        (HQSession.onGoaway lastGood true s)).maxAllowedStreamId =
      (HQSession.onGoaway lastGood true s).maxAllowedStreamId := by
  have hv' : (HQSession.onGoaway lastGood true s).version ≠
      HQSession.HQVersion.H1Q_FB_V1 := by
    rw [HQSession.onGoaway_version]; exact hv
  rw [HQSession.onGoaway_maxAllowed lastGood true s hv,
    HQSession.onGoaway_maxAllowed lastGood true _ hv',
    HQSession.onGoaway_maxAllowed (lastGood + k) true _ hv',
    HQSession.onGoaway_maxAllowed lastGood true s hv]
  refine ⟨rfl, Nat.min_le_left _ _, ?_, ?_⟩
  · rw [Nat.min_assoc, Nat.min_self]
  · exact Nat.min_eq_left (le_trans (Nat.min_le_right _ _)
      (Nat.le_add_right _ _))

/-- Claim C10, witness: the bound behaviour at a concrete upstream H3
session with bound 50 receiving GOAWAY 40 and a later GOAWAY 47. -/
theorem c10_goaway_bound_monotone_witness :
    (HQSession.onGoaway 40 true
        ⟨.HQ, .UPSTREAM, .NONE, 50, 0, [], []⟩).maxAllowedStreamId =
      min 50 40 ∧
    (HQSession.onGoaway 40 true
        ⟨.HQ, .UPSTREAM, .NONE, 50, 0, [], []⟩).maxAllowedStreamId ≤ 50 ∧
    (HQSession.onGoaway 40 true
        (HQSession.onGoaway 40 true
          ⟨.HQ, .UPSTREAM, .NONE, 50, 0, [], []⟩)).maxAllowedStreamId =
      (HQSession.onGoaway 40 true
        ⟨.HQ, .UPSTREAM, .NONE, 50, 0, [], []⟩).maxAllowedStreamId ∧
    (HQSession.onGoaway (40 + 7) true
        (HQSession.onGoaway 40 true
          ⟨.HQ, .UPSTREAM, .NONE, 50, 0, [], []⟩)).maxAllowedStreamId =
      (HQSession.onGoaway 40 true
        ⟨.HQ, .UPSTREAM, .NONE, 50, 0, [], []⟩).maxAllowedStreamId :=
  c10_goaway_bound_monotone ⟨.HQ, .UPSTREAM, .NONE, 50, 0, [], []⟩ 40 7
    (by decide)

/-- Claim C1, counterexample: on an upstream draining session with bound
100, the peer-initiated bidirectional stream id 1 is at or below the
bound yet is not accepted (it is aborted with HTTP_WRONG_STREAM), so the
claim as stated fails. -/
theorem c1_counterexample :
    (⟨.HQ, .UPSTREAM, .PENDING, 100, 0, [], []⟩ :
        HQSession.Session).drainState ≠ HQSession.DrainState.NONE ∧
    HQSession.isPeerInitiated .UPSTREAM 1 = true ∧
    ¬ HQSession.c1ClaimAt ⟨.HQ, .UPSTREAM, .PENDING, 100, 0, [], []⟩ 1 := by
  decide

/-- Claim C1, amended: for a draining H1Q-v2/H3 session, a new
peer-initiated stream that is not a bidirectional server-initiated one
(those are aborted with HTTP_WRONG_STREAM regardless of drain state) is
aborted with HTTP_REQUEST_REJECTED exactly when its id exceeds the
applicable GOAWAY bound (upstream: the advertised last-good id;
downstream: the largest peer-initiated bidirectional id seen), and is
accepted at or below the bound. -/
theorem c1_goaway_bound_amended (s : HQSession.Session) (id : Nat)
    (hdrain : s.drainState ≠ HQSession.DrainState.NONE)
    (hns : ¬(HQSession.isBidirectionalStream id = true ∧
             HQSession.isServerStream id = true)) :
    HQSession.c1ClaimAt s id := by
  have hbs : (HQSession.isBidirectionalStream id &&
      HQSession.isServerStream id) = false := by
    cases hb : HQSession.isBidirectionalStream id <;>
      cases hv : HQSession.isServerStream id <;> simp_all
  unfold HQSession.c1ClaimAt HQSession.GoawayUtils.checkNewStream
  rw [hbs]
  simp only [Bool.false_eq_true, if_false]
  refine ⟨⟨fun h => ?_, fun hex => ?_⟩, fun hnex => ?_⟩
  · by_cases hc : s.drainState ≠ HQSession.DrainState.NONE ∧
        ((s.direction = .UPSTREAM ∧ id > s.maxAllowedStreamId) ∨
         (s.direction = .DOWNSTREAM ∧
          HQSession.isBidirectionalStream id = true ∧
          id > s.maxIncomingStreamId))
    · exact hc.2
    · rw [if_neg hc] at h
      exact absurd h (by simp)
  · rw [if_pos ⟨hdrain, hex⟩]
  · rw [if_neg (fun hc => hnex hc.2)]

/-- Claim C1, witness for the amended theorem at a concrete input: a
downstream session at FIRST_GOAWAY with largest seen id 16 accepts or
rejects stream 20 per the bound comparison. -/
theorem c1_goaway_bound_amended_witness :
    HQSession.c1ClaimAt ⟨.HQ, .DOWNSTREAM, .FIRST_GOAWAY, 100, 16, [],
      [0, 8, 16]⟩ 20 :=
  c1_goaway_bound_amended _ 20 (by decide) (by decide)

/-- Claim C6, counterexample: at DrainState CLOSE_RECEIVED (which is
past PENDING in the drain DAG) with a healthy socket and a granted
stream id, newTransaction still returns a transaction, so the claim as
stated fails. -/
theorem c6_counterexample :
    HQSession.drainingPastPending
      (⟨.H1Q_FB_V1, .UPSTREAM, .CLOSE_RECEIVED, 100, 0, [], []⟩ :
        HQSession.Session).drainState ∧
    HQSession.newTransaction
      ⟨.H1Q_FB_V1, .UPSTREAM, .CLOSE_RECEIVED, 100, 0, [], []⟩ true (some 4)
      ≠ none := by
  decide

/-- Claim C6, amended: newTransaction returns null exactly when the
drain state is CLOSE_SENT, FIRST_GOAWAY or DONE (CLOSE_RECEIVED and
SECOND_GOAWAY do not block it), the socket is not good, the transport
refuses to allocate a bidirectional stream id, or the allocated id is
already taken. -/
theorem c6_new_transaction_amended (s : HQSession.Session)
    (sockGood : Bool) (alloc : Option Nat) :
    HQSession.newTransaction s sockGood alloc = none ↔
      ((s.drainState = .CLOSE_SENT ∨ s.drainState = .FIRST_GOAWAY ∨
        s.drainState = .DONE) ∨ sockGood = false ∨ alloc = none ∨
       (∃ id, alloc = some id ∧ id ∈ s.streams)) := by
  cases alloc with
  | none =>
    simp only [HQSession.newTransaction]
    refine iff_of_true ?_ (by simp)
    split
    · rfl
    · split <;> rfl
  | some id =>
    simp only [HQSession.newTransaction, HQSession.createStreamTransport]
    by_cases hdrain : s.drainState = .CLOSE_SENT ∨
        s.drainState = .FIRST_GOAWAY ∨ s.drainState = .DONE
    · rw [if_pos hdrain]; simp [hdrain]
    · rw [if_neg hdrain]
      by_cases hsock : sockGood = false
      · rw [if_pos hsock]; simp [hsock]
      · rw [if_neg hsock]
        by_cases hmem : sockGood = false ∨ id ∈ s.streams
        · rw [if_pos hmem]
          rcases hmem with hmem | hmem
          · exact absurd hmem hsock
          · exact iff_of_true rfl
              (Or.inr (Or.inr (Or.inr ⟨id, rfl, hmem⟩)))
        · rw [if_neg hmem]
          push_neg at hmem
          refine iff_of_false (by simp) ?_
          rintro (h | h | h | ⟨i, hi, hm⟩)
          · exact hdrain h
          · exact hsock h
          · exact Option.noConfusion h
          · obtain rfl : id = i := by injection hi
            exact hmem.2 hm

/-- Claim C7: on receipt of a peer reset_stream, a synthesized HTTP
exception is delivered and the reply reset code is
HTTP_REQUEST_CANCELLED upstream, HTTP_REQUEST_REJECTED downstream
before any ingress (retryable via kErrorStreamUnacknowledged when the
peer code was HTTP_REQUEST_REJECTED), and HTTP_NO_ERROR downstream once
ingress has started. -/
theorem c7_reset_stream_codes (ingressStarted : Bool)
    (peerCode : HQSession.ErrorCode) :
    (HQSession.onResetStream .UPSTREAM ingressStarted peerCode).replyResetCode
      = .HTTP_REQUEST_CANCELLED ∧
    (HQSession.onResetStream .DOWNSTREAM false peerCode).replyResetCode
      = .HTTP_REQUEST_REJECTED ∧
    (HQSession.onResetStream .DOWNSTREAM true peerCode).replyResetCode
      = .HTTP_NO_ERROR ∧
    (HQSession.onResetStream .DOWNSTREAM false
        .HTTP_REQUEST_REJECTED).proxygenError
      = .kErrorStreamUnacknowledged ∧
    (HQSession.onResetStream .UPSTREAM ingressStarted
        peerCode).exceptionDelivered = true ∧
    (HQSession.onResetStream .DOWNSTREAM ingressStarted
        peerCode).exceptionDelivered = true := by
  cases ingressStarted <;> cases peerCode <;> decide

/-- Helper: every reserved / grease preface value decodes to no stream
type. -/
theorem withType_grease (k : Nat) : HQSession.withType (31 * k + 33) = none := by
  unfold HQSession.withType
  rw [if_neg (by omega), if_neg (by omega), if_neg (by omega),
    if_neg (by omega), if_neg (by omega)]

/-- Claim C8: a peer-initiated unidirectional stream whose preface does
not denote a stream type known to the negotiated dialect — including all
reserved / grease values — is answered with STOP_SENDING carrying
HTTP_UNKNOWN_STREAM_TYPE, with no stream object created and no data
read, and known prefaces are never rejected this way. -/
theorem c8_unknown_preface_rejected (preface : Nat) :
    (HQSession.dispatchUniStreamPreface .HQ preface
        = .stopSending .HTTP_UNKNOWN_STREAM_TYPE ↔
      HQSession.HQVersionUtils.parseStreamPreface preface = none) ∧
    (HQSession.dispatchUniStreamPreface .H1Q_FB_V2 preface
        = .stopSending .HTTP_UNKNOWN_STREAM_TYPE ↔
      HQSession.H1QFBV2VersionUtils.parseStreamPreface preface = none) ∧
    (HQSession.uniDispatchCreatesStream
        (HQSession.dispatchUniStreamPreface .HQ preface) = false ↔
      HQSession.HQVersionUtils.parseStreamPreface preface = none) ∧
    (HQSession.uniDispatchCreatesStream
        (HQSession.dispatchUniStreamPreface .H1Q_FB_V2 preface) = false ↔
      HQSession.H1QFBV2VersionUtils.parseStreamPreface preface = none) ∧
    (∀ k : Nat,
      HQSession.HQVersionUtils.parseStreamPreface (31 * k + 33) = none ∧
      HQSession.H1QFBV2VersionUtils.parseStreamPreface (31 * k + 33)
        = none) := by
  refine ⟨?_, ?_, ?_, ?_, fun k => ?_⟩
  · cases h : HQSession.HQVersionUtils.parseStreamPreface preface with
    | none =>
      simp [HQSession.dispatchUniStreamPreface,
        HQSession.versionParseStreamPreface, h]
    | some t =>
      cases t <;>
        simp [HQSession.dispatchUniStreamPreface,
          HQSession.versionParseStreamPreface, h]
  · cases h : HQSession.H1QFBV2VersionUtils.parseStreamPreface preface with
    | none =>
      simp [HQSession.dispatchUniStreamPreface,
        HQSession.versionParseStreamPreface, h]
    | some t =>
      cases t <;>
        simp [HQSession.dispatchUniStreamPreface,
          HQSession.versionParseStreamPreface, h]
  · cases h : HQSession.HQVersionUtils.parseStreamPreface preface with
    | none =>
      simp [HQSession.dispatchUniStreamPreface,
        HQSession.versionParseStreamPreface, h,
        HQSession.uniDispatchCreatesStream]
    | some t =>
      cases t <;>
        simp [HQSession.dispatchUniStreamPreface,
          HQSession.versionParseStreamPreface, h,
          HQSession.uniDispatchCreatesStream]
  · cases h : HQSession.H1QFBV2VersionUtils.parseStreamPreface preface with
    | none =>
      simp [HQSession.dispatchUniStreamPreface,
        HQSession.versionParseStreamPreface, h,
        HQSession.uniDispatchCreatesStream]
    | some t =>
      cases t <;>
        simp [HQSession.dispatchUniStreamPreface,
          HQSession.versionParseStreamPreface, h,
          HQSession.uniDispatchCreatesStream]
  · constructor
    · unfold HQSession.HQVersionUtils.parseStreamPreface
      rw [withType_grease]
    · unfold HQSession.H1QFBV2VersionUtils.parseStreamPreface
      rw [withType_grease]

/-- Helper: each ingress event preserves the EOM-gate invariant. -/
theorem ingressStep_inv (s : HQSession.IngressEOMState)
    (e : HQSession.IngressEvent) (h : HQSession.ingressEOMInv s) :
    HQSession.ingressEOMInv (HQSession.ingressStep s e) := by
  obtain ⟨c, t, p, f, err⟩ := s
  obtain ⟨h1, h2⟩ := h
  simp only at h1 h2
  subst h1
  cases e with
  | msgComplete extra =>
    cases extra <;> cases c <;> cases t <;>
      simp_all [HQSession.ingressStep, HQSession.eomGateSet, HQSession.ingressEOMInv]
  | ingressEOF =>
    cases c <;> cases t <;> cases err <;>
      simp_all [HQSession.ingressStep, HQSession.eomGateSet, HQSession.ingressEOMInv]
  | codecError =>
    cases c <;> cases t <;>
      simp_all [HQSession.ingressStep, HQSession.eomGateSet, HQSession.ingressEOMInv]

/-- Helper: the EOM-gate invariant holds after any event sequence. -/
theorem runIngress_inv (evs : List HQSession.IngressEvent)
    (s : HQSession.IngressEOMState) (h : HQSession.ingressEOMInv s) :
    HQSession.ingressEOMInv (evs.foldl HQSession.ingressStep s) := by
  induction evs generalizing s with
  | nil => exact h
  | cons e tl ih => exact ih _ (ingressStep_inv s e h)

/-- Claim C3: for any sequence of codec / transport ingress events on a
request stream, the transaction-level ingress-EOM callback fires at most
once, and it has fired exactly once precisely when both the codec has
signalled message-complete and the transport has signalled EOF, in
either arrival order. -/
theorem c3_eom_gate_exactness (evs : List HQSession.IngressEvent) :
    (HQSession.runIngress evs).eomFired ≤ 1 ∧
    ((HQSession.runIngress evs).eomFired = 1 ↔
      (HQSession.runIngress evs).codecEOM = true ∧
      (HQSession.runIngress evs).transportEOF = true) := by
  have h : HQSession.ingressEOMInv (HQSession.runIngress evs) :=
    runIngress_inv evs HQSession.initIngressEOMState
      (by simp [HQSession.ingressEOMInv, HQSession.initIngressEOMState])
  obtain ⟨-, h2⟩ := h
  rw [h2]
  cases hc : (HQSession.runIngress evs).codecEOM <;>
    cases ht : (HQSession.runIngress evs).transportEOF <;> simp

/-- Helper: folding readAvailable over the pending streams dispatches
reads for exactly the prefix allowed by the remaining budget and defers
the rest. -/
theorem readAvailable_fold (pending : List Nat) (acc : HQSession.ReadLoopAcc) :
    (pending.foldl HQSession.readAvailable acc).dispatched =
      acc.dispatched ++
        pending.take (HQSession.kMaxReadsPerLoop - acc.readsPerLoop) ∧
    (pending.foldl HQSession.readAvailable acc).deferred =
      acc.deferred ++
        pending.drop (HQSession.kMaxReadsPerLoop - acc.readsPerLoop) := by
  induction pending generalizing acc with
  | nil => simp
  | cons hd tl ih =>
    rw [List.foldl_cons]
    by_cases h : HQSession.kMaxReadsPerLoop ≤ acc.readsPerLoop
    · have h0 : HQSession.kMaxReadsPerLoop - acc.readsPerLoop = 0 := by omega
      have hstep : HQSession.readAvailable acc hd =
          { acc with deferred := acc.deferred ++ [hd] } := by
        unfold HQSession.readAvailable
        rw [if_pos h]
      rw [hstep]
      obtain ⟨ih1, ih2⟩ := ih { acc with deferred := acc.deferred ++ [hd] }
      rw [ih1, ih2]
      simp [h0]
    · obtain ⟨n, hn⟩ : ∃ n,
          HQSession.kMaxReadsPerLoop - acc.readsPerLoop = n + 1 :=
        ⟨HQSession.kMaxReadsPerLoop - acc.readsPerLoop - 1, by omega⟩
      have hstep : HQSession.readAvailable acc hd =
          { acc with
              readsPerLoop := acc.readsPerLoop + 1,
              dispatched := acc.dispatched ++ [hd] } := by
        unfold HQSession.readAvailable
        rw [if_neg h]
      rw [hstep]
      obtain ⟨ih1, ih2⟩ := ih { acc with
        readsPerLoop := acc.readsPerLoop + 1,
        dispatched := acc.dispatched ++ [hd] }
      rw [ih1, ih2]
      have hn' : HQSession.kMaxReadsPerLoop - (acc.readsPerLoop + 1) = n := by
        omega
      simp [hn, hn']

/-- Claim C9: per loop-callback iteration the counter starts at zero and
at most kMaxReadsPerLoop = 16 request-stream reads are dispatched — the
dispatched reads are exactly the first 16 pending notifications, a
notification arriving with the budget exhausted performs no read, and
every skipped notification stays pending for the next loop tick instead
of being lost. -/
theorem c9_reads_per_loop (pending : List Nat) (acc : HQSession.ReadLoopAcc)
    (id : Nat) :
    (HQSession.runLoopCallbackReads pending).dispatched =
      pending.take HQSession.kMaxReadsPerLoop ∧
    (HQSession.runLoopCallbackReads pending).deferred =
      pending.drop HQSession.kMaxReadsPerLoop ∧
    (HQSession.runLoopCallbackReads pending).dispatched.length ≤
      HQSession.kMaxReadsPerLoop ∧
    (HQSession.readAvailable acc id).dispatched =
      (if HQSession.kMaxReadsPerLoop ≤ acc.readsPerLoop then acc.dispatched
       else acc.dispatched ++ [id]) := by
  obtain ⟨h1, h2⟩ := readAvailable_fold pending
    { readsPerLoop := 0, dispatched := [], deferred := [] }
  refine ⟨?_, ?_, ?_, ?_⟩
  · rw [HQSession.runLoopCallbackReads, h1]; simp
  · rw [HQSession.runLoopCallbackReads, h2]; simp
  · rw [HQSession.runLoopCallbackReads, h1]
    simp [List.length_take]
  · unfold HQSession.readAvailable
    split <;> rfl

/-- Claim C4: evaluation at the failing input.  In the nascent-first
order the ingress-push stream is bound as soon as the promise arrives
(codec installed, ingress stream id 2 assigned, reads resumed); in the
promise-first order the arrival of the nascent push stream leaves the
ingress-push stream unbound with the nascent stream still paused,
because the bind branch of onNewPushStream is an empty plug. -/
theorem c4_push_bind_failing_input :
    ((HQSession.findIngressPushStreamByPushId
        ((HQSession.createIngressPushStream
          (HQSession.onNewPushStream HQSession.initPushSessionState 2 4)
          4).1) 4) =
      some { pushId := 4, ingressStreamId := some 2,
             codecInstalled := true, readsResumed := true } ∧
     ((HQSession.createIngressPushStream
        (HQSession.onNewPushStream HQSession.initPushSessionState 2 4)
        4).1).pausedReads = []) ∧
    ((HQSession.findIngressPushStreamByPushId
        (HQSession.onNewPushStream
          ((HQSession.createIngressPushStream
            HQSession.initPushSessionState 4).1) 2 4) 4) =
      some { pushId := 4, ingressStreamId := none,
             codecInstalled := false, readsResumed := false } ∧
     (HQSession.onNewPushStream
        ((HQSession.createIngressPushStream
          HQSession.initPushSessionState 4).1) 2 4).pausedReads = [2]) := by
  decide

/-- Helper: accepting or rejecting a new bidirectional stream never
changes the drain state or the dialect. -/
theorem onNewBidi_preserves (s : HQSession.Session) (id : Nat) :
    ((HQSession.onNewBidirectionalStream s id).1).drainState = s.drainState ∧
    ((HQSession.onNewBidirectionalStream s id).1).version = s.version := by
  unfold HQSession.onNewBidirectionalStream
  cases HQSession.versionCheckNewStream s id <;> simp

/-- Helper: the drain DAG order is reflexive. -/
theorem drainReachable_refl (d : HQSession.DrainState) :
    HQSession.drainReachable d d = true := by
  cases d <;> rfl

/-- Claim C2: on a downstream H1Q-v2/H3 session, the first GOAWAY is
generated from PENDING, carries the sentinel 2^62 - 1 and moves the
drain state to FIRST_GOAWAY; the second GOAWAY is generated only by the
delivery ack of the first, carries maxIncomingStreamId and moves the
drain state to SECOND_GOAWAY; no other session operation generates a
GOAWAY while in FIRST_GOAWAY; and the orderly drain of spec scenario 2
(streams 0, 8, 16 then close_when_idle and both acks) emits exactly the
two frames [2^62 - 1, 16]. -/
theorem c2_two_goaways (s : HQSession.Session) (op : HQSession.SessionOp) :
    (s.direction = .DOWNSTREAM → s.version ≠ .H1Q_FB_V1 →
      s.drainState = .PENDING →
      HQSession.versionSendGoaway true s =
        { s with
            drainState := .FIRST_GOAWAY,
            goawaysSent := s.goawaysSent ++ [HQSession.kEightByteLimit] }) ∧
    (s.direction = .DOWNSTREAM → s.version ≠ .H1Q_FB_V1 →
      s.drainState = .FIRST_GOAWAY →
      HQSession.onGoawayAck true s =
        { s with
            drainState := .SECOND_GOAWAY,
            goawaysSent := s.goawaysSent ++ [s.maxIncomingStreamId] }) ∧
    (s.drainState = .FIRST_GOAWAY → HQSession.isGoawayAckOp op = false →
      (HQSession.applyOp op s).goawaysSent = s.goawaysSent) ∧
    ((HQSession.runOps
        [.newBidiStream 0, .newBidiStream 8, .newBidiStream 16,
         .closeIdle true, .goawayAck true, .goawayAck true]
        ⟨.HQ, .DOWNSTREAM, .NONE, HQSession.kEightByteLimit, 0, [], []⟩
      ).goawaysSent = [HQSession.kEightByteLimit, 16] ∧
     (HQSession.runOps
        [.newBidiStream 0, .newBidiStream 8, .newBidiStream 16,
         .closeIdle true, .goawayAck true, .goawayAck true]
        ⟨.HQ, .DOWNSTREAM, .NONE, HQSession.kEightByteLimit, 0, [], []⟩
      ).drainState = .DONE) := by
  refine ⟨?_, ?_, ?_, ?_⟩
  · intro h1 h2 h3
    cases hv : s.version with
    | H1Q_FB_V1 => exact absurd hv h2
    | H1Q_FB_V2 =>
      simp [HQSession.versionSendGoaway, hv, HQSession.GoawayUtils.sendGoaway,
        h1, h3, HQSession.getGoawayStreamId]
    | HQ =>
      simp [HQSession.versionSendGoaway, hv, HQSession.GoawayUtils.sendGoaway,
        h1, h3, HQSession.getGoawayStreamId]
  · intro h1 h2 h3
    cases hv : s.version with
    | H1Q_FB_V1 => exact absurd hv h2
    | H1Q_FB_V2 =>
      simp [HQSession.onGoawayAck, h3, HQSession.versionSendGoaway, hv,
        HQSession.GoawayUtils.sendGoaway, h1, HQSession.getGoawayStreamId]
    | HQ =>
      simp [HQSession.onGoawayAck, h3, HQSession.versionSendGoaway, hv,
        HQSession.GoawayUtils.sendGoaway, h1, HQSession.getGoawayStreamId]
  · intro hfg hop
    cases op with
    | drain txOk =>
      simp [HQSession.applyOp, HQSession.drainImpl, hfg]
    | transportReady txOk =>
      simp [HQSession.applyOp, HQSession.transportReadyGoawayKick, hfg]
    | goawayAck txOk => simp [HQSession.isGoawayAckOp] at hop
    | goawayCanceled =>
      simp [HQSession.applyOp, HQSession.goawayDeliveryCanceled]
    | recvGoaway id txOk =>
      by_cases hv : s.version = .H1Q_FB_V1 <;>
        simp [HQSession.applyOp, HQSession.onGoaway, HQSession.drainImpl,
          HQSession.checkForShutdown, hfg, hv]
    | closeIdle txOk =>
      by_cases hv : s.version = .H1Q_FB_V1 <;>
        simp [HQSession.applyOp, HQSession.closeWhenIdle, HQSession.drainImpl,
          HQSession.checkForShutdown, hfg, hv]
    | drop => simp [HQSession.applyOp, HQSession.dropConnection]
    | shutdownCheck =>
      simp [HQSession.applyOp, HQSession.checkForShutdown, hfg]
    | connectionEnd =>
      by_cases hv : s.version = .H1Q_FB_V1 <;>
        simp [HQSession.applyOp, HQSession.onConnectionEnd,
          HQSession.closeWhenIdle, HQSession.drainImpl,
          HQSession.checkForShutdown, hv]
    | v1Headers b =>
      cases b <;> by_cases hv : s.version = .H1Q_FB_V1 <;>
        simp [HQSession.applyOp, HQSession.v1HeadersComplete,
          HQSession.drainImpl, hfg, hv]
    | v1SendCheck b =>
      cases b <;> by_cases hv : s.version = .H1Q_FB_V1 <;>
        simp [HQSession.applyOp, HQSession.v1CheckSendingGoaway,
          HQSession.drainImpl, hfg, hv]
    | newBidiStream id =>
      simp only [HQSession.applyOp]
      unfold HQSession.onNewBidirectionalStream
      cases HQSession.versionCheckNewStream s id <;> simp
  · constructor <;> decide

/-- Claim C2, witness: the conditional parts of the theorem applied at a
concrete downstream H3 session sitting at PENDING and at FIRST_GOAWAY. -/
theorem c2_two_goaways_witness :
    HQSession.versionSendGoaway true
        ⟨.HQ, .DOWNSTREAM, .PENDING, 100, 16, [], [0, 8, 16]⟩ =
      ⟨.HQ, .DOWNSTREAM, .FIRST_GOAWAY, 100, 16,
        [HQSession.kEightByteLimit], [0, 8, 16]⟩ ∧
    HQSession.onGoawayAck true
        ⟨.HQ, .DOWNSTREAM, .FIRST_GOAWAY, 100, 16,
          [HQSession.kEightByteLimit], [0, 8, 16]⟩ =
      ⟨.HQ, .DOWNSTREAM, .SECOND_GOAWAY, 100, 16,
        [HQSession.kEightByteLimit, 16], [0, 8, 16]⟩ ∧
    (HQSession.applyOp .drop
        ⟨.HQ, .DOWNSTREAM, .FIRST_GOAWAY, 100, 16,
          [HQSession.kEightByteLimit], [0, 8, 16]⟩).goawaysSent =
      [HQSession.kEightByteLimit] := by
  refine ⟨?_, ?_, ?_⟩
  · exact (c2_two_goaways
      ⟨.HQ, .DOWNSTREAM, .PENDING, 100, 16, [], [0, 8, 16]⟩ .drop).1
      rfl (by decide) rfl
  · exact (c2_two_goaways
      ⟨.HQ, .DOWNSTREAM, .FIRST_GOAWAY, 100, 16,
        [HQSession.kEightByteLimit], [0, 8, 16]⟩ .drop).2.1
      rfl (by decide) rfl
  · exact (c2_two_goaways
      ⟨.HQ, .DOWNSTREAM, .FIRST_GOAWAY, 100, 16,
        [HQSession.kEightByteLimit], [0, 8, 16]⟩ .drop).2.2.1
      rfl rfl

/-- Claim C5: every session operation that touches DrainState moves it
forward along the drain DAG — NONE -> PENDING, then CLOSE_SENT /
CLOSE_RECEIVED for H1Q-v1 or FIRST_GOAWAY -> SECOND_GOAWAY for
H1Q-v2/H3, ending in DONE — and preserves the dialect / drain-state
compatibility invariant; no operation ever moves DrainState backwards. -/
theorem c5_drain_monotone (s : HQSession.Session) (op : HQSession.SessionOp)
    (h : HQSession.drainInv s = true) :
    HQSession.drainReachable s.drainState
        (HQSession.applyOp op s).drainState = true ∧
    HQSession.drainInv (HQSession.applyOp op s) = true := by
  obtain ⟨v, d, ds, ma, mi, gs, strs⟩ := s
  cases op with
  | drain txOk =>
    cases v <;> cases d <;> cases ds <;> cases txOk <;>
      simp_all [HQSession.applyOp, HQSession.drainImpl,
        HQSession.versionSendGoaway, HQSession.GoawayUtils.sendGoaway,
        HQSession.getGoawayStreamId, HQSession.drainReachable,
        HQSession.drainInv, HQSession.drainStateOK]
  | transportReady txOk =>
    cases v <;> cases d <;> cases ds <;> cases txOk <;>
      simp_all [HQSession.applyOp, HQSession.transportReadyGoawayKick,
        HQSession.versionSendGoaway, HQSession.GoawayUtils.sendGoaway,
        HQSession.getGoawayStreamId, HQSession.drainReachable,
        HQSession.drainInv, HQSession.drainStateOK]
  | goawayAck txOk =>
    cases v <;> cases d <;> cases ds <;> cases txOk <;>
      simp_all [HQSession.applyOp, HQSession.onGoawayAck,
        HQSession.versionSendGoaway, HQSession.GoawayUtils.sendGoaway,
        HQSession.getGoawayStreamId, HQSession.drainReachable,
        HQSession.drainInv, HQSession.drainStateOK]
  | goawayCanceled =>
    cases v <;> cases d <;> cases ds <;>
      simp_all [HQSession.applyOp, HQSession.goawayDeliveryCanceled,
        HQSession.drainReachable, HQSession.drainInv, HQSession.drainStateOK]
  | recvGoaway id txOk =>
    cases v <;> cases d <;> cases ds <;> cases txOk <;>
      simp_all [HQSession.applyOp, HQSession.onGoaway, HQSession.drainImpl,
        HQSession.versionSendGoaway, HQSession.GoawayUtils.sendGoaway,
        HQSession.getGoawayStreamId, HQSession.checkForShutdown,
        HQSession.drainReachable, HQSession.drainInv, HQSession.drainStateOK]
  | closeIdle txOk =>
    cases v <;> cases d <;> cases ds <;> cases txOk <;>
      simp_all [HQSession.applyOp, HQSession.closeWhenIdle,
        HQSession.drainImpl, HQSession.versionSendGoaway,
        HQSession.GoawayUtils.sendGoaway, HQSession.getGoawayStreamId,
        HQSession.checkForShutdown, HQSession.drainReachable,
        HQSession.drainInv, HQSession.drainStateOK]
  | drop =>
    cases v <;> cases d <;> cases ds <;>
      simp_all [HQSession.applyOp, HQSession.dropConnection,
        HQSession.drainReachable, HQSession.drainInv, HQSession.drainStateOK]
  | shutdownCheck =>
    cases v <;> cases d <;> cases ds <;>
      simp_all [HQSession.applyOp, HQSession.checkForShutdown,
        HQSession.drainReachable, HQSession.drainInv, HQSession.drainStateOK]
  | connectionEnd =>
    cases v <;> cases d <;> cases ds <;>
      simp_all [HQSession.applyOp, HQSession.onConnectionEnd,
        HQSession.closeWhenIdle, HQSession.drainImpl,
        HQSession.versionSendGoaway, HQSession.GoawayUtils.sendGoaway,
        HQSession.getGoawayStreamId, HQSession.checkForShutdown,
        HQSession.drainReachable, HQSession.drainInv, HQSession.drainStateOK]
  | v1Headers b =>
    cases v <;> cases d <;> cases ds <;> cases b <;>
      simp_all [HQSession.applyOp, HQSession.v1HeadersComplete,
        HQSession.drainImpl, HQSession.versionSendGoaway,
        HQSession.drainReachable, HQSession.drainInv, HQSession.drainStateOK]
  | v1SendCheck b =>
    cases v <;> cases d <;> cases ds <;> cases b <;>
      simp_all [HQSession.applyOp, HQSession.v1CheckSendingGoaway,
        HQSession.drainImpl, HQSession.versionSendGoaway,
        HQSession.drainReachable, HQSession.drainInv, HQSession.drainStateOK]
  | newBidiStream id =>
    obtain ⟨h1, h2⟩ := onNewBidi_preserves ⟨v, d, ds, ma, mi, gs, strs⟩ id
    simp only [HQSession.applyOp]
    simp only [HQSession.drainInv] at h ⊢
    constructor
    · rw [h1]
      exact drainReachable_refl _
    · rw [h1, h2]
      exact h

/-- Claim C5, witness: the monotonicity theorem applied to a concrete
H3 downstream session at PENDING being drained. -/
theorem c5_drain_monotone_witness :
    HQSession.drainReachable
        (⟨.HQ, .DOWNSTREAM, .PENDING, 100, 16, [], []⟩ :
          HQSession.Session).drainState
        (HQSession.applyOp (.drain true)
          ⟨.HQ, .DOWNSTREAM, .PENDING, 100, 16, [], []⟩).drainState = true ∧
    HQSession.drainInv (HQSession.applyOp (.drain true)
        ⟨.HQ, .DOWNSTREAM, .PENDING, 100, 16, [], []⟩) = true :=
  c5_drain_monotone ⟨.HQ, .DOWNSTREAM, .PENDING, 100, 16, [], []⟩
    (.drain true) (by decide)
